import Mathlib

/-!
Shallow embedding of the authentication / API-key-issuance core of the
Time Zone Conversion API (src/project/authenticate_user_service.py,
src/project/issue_api_key_service.py, src/project/server.py).

Time is modelled in seconds as `Nat`; `datetime.utcnow()` / `datetime.now()`
become an explicit `now : Nat` parameter.  The user repository (prisma) is a
`List User`; `find_unique` is `List.find?` and `update` is a `List.map` that
rewrites the matching record.  Randomness (`uuid.uuid4()`) is an explicit
128-bit value parameter.  JWT encoding is modelled as a structure holding the
payload claims, signing key and algorithm (encode/decode is the identity on
these fields, which is all the stated properties need).
-/

namespace TzApi

/-- Role enumeration referenced by the code: `prisma.enums.UserRole.ADMIN`
together with the non-admin roles. -/
inductive UserRole where
  | ADMIN : UserRole
  | USER : UserRole
deriving DecidableEq

/-- The prisma `User` record as used by the services: `id`, `email` (login
handle), `password` (the stored bcrypt hash), `role`, and the nullable
`apiKey` field. -/
structure User where
  id : String
  email : String
  password : String
  role : UserRole
  apiKey : Option String
deriving DecidableEq

/-- The user repository: the collection of user records. -/
abbrev Db := List User

/-- Lookup `find_unique(where={"email": username})` on the user table. -/
def findUniqueByEmail (db : Db) (username : String) : Option User :=
  db.find? (fun u => u.email == username)

/-- Lookup `find_unique(where={"id": user_id})` on the user table. -/
def findUniqueById (db : Db) (user_id : String) : Option User :=
  db.find? (fun u => u.id == user_id)

/-- Update `update(where={"id": user_id}, data={"apiKey": new_api_key})`:
rewrites the `apiKey` field of the records matching the id and nothing
else. -/
def updateApiKey (db : Db) (user_id : String) (key : String) : Db :=
  db.map (fun u => if u.id == user_id then { u with apiKey := some key } else u)

/-- Exception value `fastapi.HTTPException(status_code=..., detail=...)`. -/
structure HTTPException where
  status_code : Nat
  detail : String
deriving DecidableEq

/-- Modelled from the spec: the Credential Verifier's hash function.  The
hashing itself lives in the external `passlib` bcrypt library (the source
only calls `pwd_context.verify`); the spec describes an irreversible salted
digest of the password, modelled here as an injective tagged encoding. -/
def hash_of (p : String) : String := "bcrypt$" ++ p

/-- Function `verify_password(plain_password, hashed_password)`
(`pwd_context.verify`): verification by recomputation against the stored
digest.  Total: a mismatch yields `false`, never an exception; no side
effects. -/
def verify_password (plain_password hashed_password : String) : Bool :=
  hash_of plain_password == hashed_password

/-- Module-level constant `SECRET_KEY = "YOUR_SECRET_KEY"`. -/
def SECRET_KEY : String := "YOUR_SECRET_KEY"

/-- Module-level constant `ALGORITHM = "HS256"`. -/
def ALGORITHM : String := "HS256"

/-- Payload dict passed to `create_access_token`
(`data={"sub": user.email}`). -/
structure TokenData where
  sub : String
deriving DecidableEq

/-- Claims carried by the encoded token: the payload data plus the `exp`
claim added by `create_access_token`. -/
structure TokenClaims where
  sub : String
  exp : Nat
deriving DecidableEq

/-- Result of `jwt.encode(to_encode, SECRET_KEY, algorithm=ALGORITHM)`: a
signed artifact carrying the claims; modelled as the claims together with
the signing key and algorithm used. -/
structure Jwt where
  claims : TokenClaims
  key : String
  alg : String
deriving DecidableEq

/-- Function `create_access_token(data, expires_delta)`.  `expires_delta`
is an optional duration in seconds; the model covers the non-negative
durations the code is called with.  Python's `if expires_delta:` is a
truthiness test: both `None` and `timedelta(0)` take the default branch
(`exp = now + 15 minutes`); only a nonzero delta yields
`exp = now + delta`. -/
def create_access_token (data : TokenData) (expires_delta : Option Nat)
    (now : Nat) : Jwt :=
  let exp : Nat :=
    match expires_delta with
    | some d => if d ≠ 0 then now + d else now + 15 * 60
    | none => now + 15 * 60
  { claims := { sub := data.sub, exp := exp }, key := SECRET_KEY, alg := ALGORITHM }

/-- Function `get_user(username)`: `find_unique` by email, raising
`HTTPException(404, "User not found")` when absent. -/
def get_user (db : Db) (username : String) : Except HTTPException User :=
  match findUniqueByEmail db username with
  | none => Except.error { status_code := 404, detail := "User not found" }
  | some user => Except.ok user

/-- Response model `AuthenticationResponse(access_token=..., token_type=...)`. -/
structure AuthenticationResponse where
  access_token : Jwt
  token_type : String
deriving DecidableEq

/-- Function `authenticate_user(username, password)`: look up the user (404
when absent), verify the password (401 on mismatch), then mint a token with
a 60-minute expiry and subject `user.email`, paired with token type
`"bearer"`. -/
def authenticate_user (db : Db) (now : Nat) (username password : String) :
    Except HTTPException AuthenticationResponse :=
  match get_user db username with
  | Except.error e => Except.error e
  | Except.ok user =>
    if ¬ verify_password password user.password then
      Except.error { status_code := 401, detail := "Incorrect username or password" }
    else
      let access_token := create_access_token { sub := user.email } (some (60 * 60)) now
      Except.ok { access_token := access_token, token_type := "bearer" }

/-- Hex digit characters as produced by Python's lowercase hex formatting,
used by `str(uuid.UUID)`. -/
def hexChar (k : Nat) : Char :=
  match k with
  | 0 => '0' | 1 => '1' | 2 => '2' | 3 => '3'
  | 4 => '4' | 5 => '5' | 6 => '6' | 7 => '7'
  | 8 => '8' | 9 => '9' | 10 => 'a' | 11 => 'b'
  | 12 => 'c' | 13 => 'd' | 14 => 'e' | 15 => 'f'
  | _ => '0'

/-- Fixed-width big-endian hex rendering of a natural number: the low
`w` hex digits of `m`, most significant first. -/
def hexDigits : Nat → Nat → List Char
  | 0, _ => []
  | w + 1, m => hexDigits w (m / 16) ++ [hexChar (m % 16)]

/-- Numeric value of a hex digit character (inverse of `hexChar`). -/
def hexVal (c : Char) : Nat :=
  match c with
  | '0' => 0 | '1' => 1 | '2' => 2 | '3' => 3
  | '4' => 4 | '5' => 5 | '6' => 6 | '7' => 7
  | '8' => 8 | '9' => 9 | 'a' => 10 | 'b' => 11
  | 'c' => 12 | 'd' => 13 | 'e' => 14 | 'f' => 15
  | _ => 0

/-- Value of a big-endian hex digit list. -/
def fromHex (l : List Char) : Nat :=
  l.foldl (fun acc c => 16 * acc + hexVal c) 0

/-- Canonical 8-4-4-4-12 lowercase-hex rendering of the 128-bit value `m`,
as produced by `str` on a `uuid.UUID`. -/
def uuidChars (m : Nat) : List Char :=
  hexDigits 8 (m / 2 ^ 96) ++ '-' ::
    (hexDigits 4 (m / 2 ^ 80) ++ '-' ::
      (hexDigits 4 (m / 2 ^ 64) ++ '-' ::
        (hexDigits 4 (m / 2 ^ 48) ++ '-' :: hexDigits 12 m)))

/-- Model of `str(uuid.uuid4())` where `rnd` is the 128-bit random value
drawn by `uuid.uuid4()` (the external `uuid` library). -/
def uuidString (rnd : Nat) : String :=
  String.mk (uuidChars (rnd % 2 ^ 128))

/-- Response model `IssueApiKeyResponse(api_key=..., permissions=...,
expiration_date=...)`. -/
structure IssueApiKeyResponse where
  api_key : String
  permissions : List String
  expiration_date : Nat
deriving DecidableEq

/-- Function `issue_api_key(user_id, permissions)`: resolve the user by id
(404 when absent), require role ADMIN (403 otherwise), generate a fresh key
from the call's uuid4 randomness `rnd`, compute expiration
`now + 365 days`, persist the key via the repository update, and return the
grant echoing the caller-supplied permissions.  The pair's second component
is the repository after the call. -/
def issue_api_key (db : Db) (now : Nat) (rnd : Nat) (user_id : String)
    (permissions : List String) :
    Except HTTPException IssueApiKeyResponse × Db :=
  match findUniqueById db user_id with
  | none => (Except.error { status_code := 404, detail := "User not found." }, db)
  | some user =>
    if user.role ≠ UserRole.ADMIN then
      (Except.error { status_code := 403, detail := "Insufficient permissions." }, db)
    else
      let new_api_key := uuidString rnd
      let expiration_date := now + 365 * 86400
      let db2 := updateApiKey db user_id new_api_key
      (Except.ok { api_key := new_api_key, permissions := permissions,
                   expiration_date := expiration_date }, db2)

/-- JSON error body `{"error": str(e)}` built by the endpoint handlers in
server.py, with the response status code. -/
structure ErrorResponse where
  status_code : Nat
  error : String
deriving DecidableEq

/-- Rendering `str(e)` of a caught starlette/fastapi `HTTPException`:
`"<status_code>: <detail>"`. -/
def strOfException (e : HTTPException) : String :=
  toString e.status_code ++ ": " ++ e.detail

/-- Endpoint `api_post_authenticate_user` in server.py: delegates to
`authenticate_user` inside a `try` block whose `except Exception` catch-all
also catches the service's `HTTPException`s and converts every error into a
`Response(status_code=500)` whose body is `{"error": str(e)}`. -/
def api_post_authenticate_user (db : Db) (now : Nat)
    (username password : String) :
    Except ErrorResponse AuthenticationResponse :=
  match authenticate_user db now username password with
  | Except.ok res => Except.ok res
  | Except.error e =>
    Except.error { status_code := 500, error := strOfException e }

/-- Endpoint `api_post_issue_api_key` in server.py: the same catch-all
wrapper around `issue_api_key`. -/
def api_post_issue_api_key (db : Db) (now : Nat) (rnd : Nat)
    (user_id : String) (permissions : List String) :
    (Except ErrorResponse IssueApiKeyResponse) × Db :=
  match issue_api_key db now rnd user_id permissions with
  | (Except.ok res, db2) => (Except.ok res, db2)
  | (Except.error e, db2) =>
    (Except.error { status_code := 500, error := strOfException e }, db2)

/-- Agreement of two repositories on every field except the stored password
hash: same length, and record-wise equal ids, emails, roles and api keys. -/
def agreeExceptPassword (db1 db2 : Db) : Prop :=
  List.Forall₂ (fun u v => u.id = v.id ∧ u.email = v.email ∧ u.role = v.role ∧
    u.apiKey = v.apiKey) db1 db2

/-- Concrete admin user used by the witnesses. -/
def demoUser : User :=
  { id := "u1", email := "alice@example.com", password := hash_of "pw",
    role := UserRole.ADMIN, apiKey := none }

/-- Variant of `demoUser` with a different stored password hash. -/
def demoUser2 : User :=
  { id := "u1", email := "alice@example.com", password := hash_of "other",
    role := UserRole.ADMIN, apiKey := none }

/-- Concrete non-admin user used by the witnesses. -/
def bobUser : User :=
  { id := "u2", email := "bob@example.com", password := hash_of "pw2",
    role := UserRole.USER, apiKey := none }

/-- Concrete one-user repository used by the witnesses. -/
def demoDb : Db := [demoUser]

theorem hexDigits_length (w : Nat) : ∀ m : Nat, (hexDigits w m).length = w := by
  induction w with
  | zero => intro m; rfl
  | succ w ih => intro m; simp [hexDigits, ih]

theorem hexVal_hexChar {k : Nat} (h : k < 16) : hexVal (hexChar k) = k := by
  have hall : ∀ k < 16, hexVal (hexChar k) = k := by decide
  exact hall k h

theorem fromHex_hexDigits (w : Nat) : ∀ m : Nat, fromHex (hexDigits w m) = m % 16 ^ w := by
  induction w with
  | zero => intro m; simp [hexDigits, fromHex, Nat.mod_one]
  | succ w ih =>
    intro m
    unfold fromHex at ih ⊢
    rw [hexDigits, List.foldl_append]
    simp only [List.foldl]
    rw [ih, hexVal_hexChar (Nat.mod_lt _ (by norm_num))]
    rw [pow_succ', Nat.mod_mul]
    omega

theorem uuidChars_inj {m1 m2 : Nat} (h1 : m1 < 2 ^ 128) (h2 : m2 < 2 ^ 128)
    (h : uuidChars m1 = uuidChars m2) : m1 = m2 := by
  unfold uuidChars at h
  obtain ⟨g1, h⟩ := List.append_inj h (by rw [hexDigits_length, hexDigits_length])
  obtain ⟨-, h⟩ := List.cons.inj h
  obtain ⟨g2, h⟩ := List.append_inj h (by rw [hexDigits_length, hexDigits_length])
  obtain ⟨-, h⟩ := List.cons.inj h
  obtain ⟨g3, h⟩ := List.append_inj h (by rw [hexDigits_length, hexDigits_length])
  obtain ⟨-, h⟩ := List.cons.inj h
  obtain ⟨g4, g5⟩ := List.append_inj h (by rw [hexDigits_length, hexDigits_length])
  obtain ⟨-, g5⟩ := List.cons.inj g5
  have e1 := congrArg fromHex g1
  have e2 := congrArg fromHex g2
  have e3 := congrArg fromHex g3
  have e4 := congrArg fromHex g4
  have e5 := congrArg fromHex g5
  rw [fromHex_hexDigits, fromHex_hexDigits] at e1 e2 e3 e4 e5
  norm_num at e1 e2 e3 e4 e5 h1 h2
  omega

theorem uuidString_inj {n1 n2 : Nat} (h1 : n1 < 2 ^ 128) (h2 : n2 < 2 ^ 128)
    (h : uuidString n1 = uuidString n2) : n1 = n2 := by
  unfold uuidString at h
  rw [Nat.mod_eq_of_lt h1, Nat.mod_eq_of_lt h2] at h
  exact uuidChars_inj h1 h2 (by injection h)

theorem uuidString_length (n : Nat) : (uuidString n).length = 36 := by
  show (uuidChars (n % 2 ^ 128)).length = 36
  simp [uuidChars, hexDigits_length]

theorem findUniqueById_updateApiKey (db : Db) (uid key : String) :
    findUniqueById (updateApiKey db uid key) uid =
      (findUniqueById db uid).map (fun u => { u with apiKey := some key }) := by
  unfold findUniqueById updateApiKey
  induction db with
  | nil => rfl
  | cons u rest ih =>
    by_cases hu : u.id = uid
    · simp [List.find?_cons, hu]
    · have hbeq : (u.id == uid) = false := beq_eq_false_iff_ne.mpr hu
      simp only [List.map_cons, List.find?_cons, hbeq, if_false]
      simpa [hbeq] using ih

theorem mem_updateApiKey_apiKey {db : Db} {uid key : String} {u2 : User}
    (h : u2 ∈ updateApiKey db uid key) (hid : u2.id = uid) :
    u2.apiKey = some key := by
  unfold updateApiKey at h
  obtain ⟨u, hu, hfu⟩ := List.mem_map.mp h
  by_cases h' : u.id = uid
  · subst hfu; simp [h']
  · subst hfu
    simp only [beq_eq_false_iff_ne.mpr h', if_false] at hid ⊢
    exact absurd hid h'

theorem findUniqueByEmail_agree_none {db1 db2 : Db}
    (h : agreeExceptPassword db1 db2) (username : String) :
    (findUniqueByEmail db1 username = none ↔ findUniqueByEmail db2 username = none) := by
  unfold findUniqueByEmail
  induction h with
  | nil => simp
  | cons huv _ ih =>
    rename_i u v l1 l2 _
    obtain ⟨-, he, -, -⟩ := huv
    by_cases hm : u.email = username
    · simp [List.find?_cons, hm, ← he]
    · have h1 : (u.email == username) = false := beq_eq_false_iff_ne.mpr hm
      have h2 : (v.email == username) = false := beq_eq_false_iff_ne.mpr (he ▸ hm)
      simpa [List.find?_cons, h1, h2] using ih

theorem api_auth_error_cases (db : Db) (now : Nat) (username password : String)
    (e : ErrorResponse)
    (h : api_post_authenticate_user db now username password = Except.error e) :
    (findUniqueByEmail db username = none ∧
      e = { status_code := 500, error := "404: User not found" }) ∨
    ((∃ u, findUniqueByEmail db username = some u) ∧
      e = { status_code := 500, error := "401: Incorrect username or password" }) := by
  unfold api_post_authenticate_user authenticate_user get_user at h
  cases hf : findUniqueByEmail db username with
  | none =>
    rw [hf] at h
    left
    refine ⟨rfl, ?_⟩
    simp only [] at h
    cases h
    rfl
  | some u =>
    rw [hf] at h
    by_cases hv : verify_password password u.password
    · simp [hv] at h
    · right
      refine ⟨⟨u, rfl⟩, ?_⟩
      simp only [hv, not_false_iff, if_true] at h
      cases h
      rfl

theorem api_issue_error_cases (db : Db) (now rnd : Nat) (uid : String)
    (perms : List String) (e : ErrorResponse) (db2 : Db)
    (h : api_post_issue_api_key db now rnd uid perms = (Except.error e, db2)) :
    (e = { status_code := 500, error := "404: User not found." } ∨
      e = { status_code := 500, error := "403: Insufficient permissions." }) ∧
    db2 = db := by
  unfold api_post_issue_api_key issue_api_key at h
  cases hf : findUniqueById db uid with
  | none =>
    rw [hf] at h
    simp only [] at h
    obtain ⟨he, hdb⟩ := Prod.mk.inj h
    cases he
    exact ⟨Or.inl rfl, hdb.symm⟩
  | some u =>
    rw [hf] at h
    by_cases hr : u.role = UserRole.ADMIN
    · simp [hr] at h
    · simp only [hr, ne_eq, not_false_iff, if_true] at h
      obtain ⟨he, hdb⟩ := Prod.mk.inj h
      cases he
      exact ⟨Or.inr rfl, hdb.symm⟩

theorem hash_of_inj {p q : String} (h : hash_of p = hash_of q) : p = q := by
  unfold hash_of at h
  have hd : ("bcrypt$" ++ p).data = ("bcrypt$" ++ q).data := by rw [h]
  simp only [String.data_append] at hd
  have : p.data = q.data := List.append_cancel_left hd
  cases p; cases q
  exact congrArg String.mk this

/-- C1: for every username and password such that a user with that handle
exists and the password verifies against the stored hash,
`authenticate_user` succeeds with a token whose `exp` claim is exactly 60
minutes after issuance time, whose `sub` claim equals the user's email
handle, and whose `token_type` is the constant `"bearer"`. -/
theorem C1_authenticate_success (db : Db) (now : Nat) (username password : String)
    (user : User) (hfind : findUniqueByEmail db username = some user)
    (hverify : verify_password password user.password = true) :
    ∃ r, authenticate_user db now username password = Except.ok r ∧
      r.access_token.claims.exp = now + 60 * 60 ∧
      r.access_token.claims.sub = user.email ∧
      r.token_type = "bearer" := by
  unfold authenticate_user get_user
  rw [hfind]
  refine ⟨{ access_token := create_access_token { sub := user.email } (some (60 * 60)) now,
            token_type := "bearer" }, ?_, ?_, ?_, ?_⟩
  · simp [hverify]
  · norm_num [create_access_token]
  · norm_num [create_access_token]
  · rfl

theorem C1_witness :
    findUniqueByEmail demoDb "alice@example.com" = some demoUser ∧
    verify_password "pw" demoUser.password = true ∧
    (∃ r, authenticate_user demoDb 1000 "alice@example.com" "pw" = Except.ok r ∧
      r.access_token.claims.exp = 1000 + 60 * 60 ∧
      r.access_token.claims.sub = demoUser.email ∧
      r.token_type = "bearer") :=
  ⟨rfl, by decide,
    C1_authenticate_success demoDb 1000 "alice@example.com" "pw" demoUser rfl (by decide)⟩

/-- C2: the service layer maps a missing user to status 404 and a wrong
password to status 401 and never swaps them, but the delivery endpoint
`api_post_authenticate_user` wraps the service call in a catch-all that
also catches `HTTPException`, so at the exposed interface both failures are
replaced by a 500 response; neither 404 nor 401 ever appears there. -/
theorem C2_exposed_status_replaced :
    authenticate_user [] 0 "nobody" "pw" =
      Except.error { status_code := 404, detail := "User not found" } ∧
    api_post_authenticate_user [] 0 "nobody" "pw" =
      Except.error { status_code := 500, error := "404: User not found" } ∧
    authenticate_user demoDb 0 "alice@example.com" "wrong" =
      Except.error { status_code := 401, detail := "Incorrect username or password" } ∧
    api_post_authenticate_user demoDb 0 "alice@example.com" "wrong" =
      Except.error { status_code := 500, error := "401: Incorrect username or password" } :=
  ⟨rfl, rfl, rfl, rfl⟩

/-- C3: `issue_api_key` fails with 404 NotFound when no user has the given
id, and with 403 Denied when the user exists but is not an admin (the
lookup check precedes the role check); in either failure case the
repository is returned unchanged. -/
theorem C3_issue_failure_order (db : Db) (now rnd : Nat) (uid : String)
    (perms : List String) :
    (findUniqueById db uid = none →
      issue_api_key db now rnd uid perms =
        (Except.error { status_code := 404, detail := "User not found." }, db)) ∧
    (∀ user, findUniqueById db uid = some user → user.role ≠ UserRole.ADMIN →
      issue_api_key db now rnd uid perms =
        (Except.error { status_code := 403, detail := "Insufficient permissions." }, db)) := by
  constructor
  · intro hf
    unfold issue_api_key
    rw [hf]
  · intro user hf hrole
    unfold issue_api_key
    rw [hf]
    simp [hrole]

theorem C3_witness :
    (findUniqueById [] "u1" = none ∧
      issue_api_key [] 0 0 "u1" ["read"] =
        (Except.error { status_code := 404, detail := "User not found." }, [])) ∧
    (findUniqueById [bobUser] "u2" = some bobUser ∧ bobUser.role ≠ UserRole.ADMIN ∧
      issue_api_key [bobUser] 0 0 "u2" ["read"] =
        (Except.error { status_code := 403, detail := "Insufficient permissions." }, [bobUser])) :=
  ⟨⟨rfl, (C3_issue_failure_order [] 0 0 "u1" ["read"]).1 rfl⟩,
    ⟨rfl, by decide,
      (C3_issue_failure_order [bobUser] 0 0 "u2" ["read"]).2 bobUser rfl (by decide)⟩⟩

/-- C4: a successful `issue_api_key` call on an existing ADMIN user returns
a grant whose key is the freshly generated 36-character uuid4 string, whose
permissions are the caller-supplied list unchanged, and whose expiration is
the call's current time plus 365 days; the new key is persisted onto that
user's record via the repository update. -/
theorem C4_issue_success (db : Db) (now rnd : Nat) (uid : String)
    (perms : List String) (user : User)
    (hfind : findUniqueById db uid = some user)
    (hrole : user.role = UserRole.ADMIN) :
    ∃ resp, issue_api_key db now rnd uid perms =
        (Except.ok resp, updateApiKey db uid resp.api_key) ∧
      resp.api_key = uuidString rnd ∧
      resp.api_key.length = 36 ∧
      resp.permissions = perms ∧
      resp.expiration_date = now + 365 * 86400 ∧
      findUniqueById (updateApiKey db uid resp.api_key) uid =
        some { user with apiKey := some resp.api_key } := by
  refine ⟨{ api_key := uuidString rnd, permissions := perms,
            expiration_date := now + 365 * 86400 }, ?_, rfl, uuidString_length rnd, rfl, rfl, ?_⟩
  · unfold issue_api_key
    rw [hfind]
    simp [hrole]
  · rw [findUniqueById_updateApiKey, hfind]
    rfl

theorem C4_witness :
    findUniqueById demoDb "u1" = some demoUser ∧
    demoUser.role = UserRole.ADMIN ∧
    (∃ resp, issue_api_key demoDb 0 7 "u1" ["read", "write"] =
        (Except.ok resp, updateApiKey demoDb "u1" resp.api_key) ∧
      resp.api_key = uuidString 7 ∧
      resp.api_key.length = 36 ∧
      resp.permissions = ["read", "write"] ∧
      resp.expiration_date = 0 + 365 * 86400 ∧
      findUniqueById (updateApiKey demoDb "u1" resp.api_key) "u1" =
        some { demoUser with apiKey := some resp.api_key }) :=
  ⟨rfl, rfl, C4_issue_success demoDb 0 7 "u1" ["read", "write"] demoUser rfl rfl⟩

/-- C5: issuing an API key twice for the same admin user with distinct
uuid4 draws succeeds both times and yields two distinct key values; after
the second issuance the repository record for that user holds only the
second key — the first is overwritten, and every record matching the user
id carries exactly the second key. -/
theorem C5_reissue_overwrites (db : Db) (now1 now2 n1 n2 : Nat) (uid : String)
    (perms1 perms2 : List String) (user : User)
    (hfind : findUniqueById db uid = some user)
    (hrole : user.role = UserRole.ADMIN)
    (hb1 : n1 < 2 ^ 128) (hb2 : n2 < 2 ^ 128) (hne : n1 ≠ n2) :
    ∃ r1 r2 db1 db2,
      issue_api_key db now1 n1 uid perms1 = (Except.ok r1, db1) ∧
      issue_api_key db1 now2 n2 uid perms2 = (Except.ok r2, db2) ∧
      r1.api_key ≠ r2.api_key ∧
      findUniqueById db2 uid = some { user with apiKey := some r2.api_key } ∧
      (∀ u2, u2 ∈ db2 → u2.id = uid → u2.apiKey = some r2.api_key) := by
  refine ⟨{ api_key := uuidString n1, permissions := perms1,
            expiration_date := now1 + 365 * 86400 },
          { api_key := uuidString n2, permissions := perms2,
            expiration_date := now2 + 365 * 86400 },
          updateApiKey db uid (uuidString n1),
          updateApiKey (updateApiKey db uid (uuidString n1)) uid (uuidString n2),
          ?_, ?_, ?_, ?_, ?_⟩
  · unfold issue_api_key
    rw [hfind]
    simp [hrole]
  · unfold issue_api_key
    rw [findUniqueById_updateApiKey, hfind]
    simp [hrole]
  · intro heq
    exact hne (uuidString_inj hb1 hb2 heq)
  · rw [findUniqueById_updateApiKey, findUniqueById_updateApiKey, hfind]
    rfl
  · intro u2 hmem hid
    exact mem_updateApiKey_apiKey hmem hid

theorem C5_witness :
    findUniqueById demoDb "u1" = some demoUser ∧
    demoUser.role = UserRole.ADMIN ∧
    (3 : Nat) < 2 ^ 128 ∧ (4 : Nat) < 2 ^ 128 ∧ (3 : Nat) ≠ 4 ∧
    (∃ r1 r2 db1 db2,
      issue_api_key demoDb 10 3 "u1" ["read"] = (Except.ok r1, db1) ∧
      issue_api_key db1 20 4 "u1" ["write"] = (Except.ok r2, db2) ∧
      r1.api_key ≠ r2.api_key ∧
      findUniqueById db2 "u1" = some { demoUser with apiKey := some r2.api_key } ∧
      (∀ u2, u2 ∈ db2 → u2.id = "u1" → u2.apiKey = some r2.api_key)) :=
  ⟨rfl, rfl, by norm_num, by norm_num, by norm_num,
    C5_reissue_overwrites demoDb 10 20 3 4 "u1" ["read"] ["write"] demoUser rfl rfl
      (by norm_num) (by norm_num) (by norm_num)⟩

/-- C6: password verification accepts every password against its own hash
and rejects it against the hash of any different password; it is a total
pure function, so a mismatch yields the value `false` rather than an
exception and there are no side effects. -/
theorem C6_verify_correct :
    (∀ p : String, verify_password p (hash_of p) = true) ∧
    (∀ p q : String, p ≠ q → verify_password p (hash_of q) = false) := by
  constructor
  · intro p
    simp [verify_password]
  · intro p q hpq
    unfold verify_password
    rw [beq_eq_false_iff_ne]
    intro heq
    exact hpq (hash_of_inj heq)

theorem C6_witness :
    verify_password "pw" (hash_of "pw") = true ∧
    ("pw" : String) ≠ "other" ∧
    verify_password "pw" (hash_of "other") = false :=
  ⟨C6_verify_correct.1 "pw", by decide, C6_verify_correct.2 "pw" "other" (by decide)⟩

/-- C7: the signing secret is the hard-coded non-empty constant
`SECRET_KEY`; every minted token is signed with exactly that constant and
the fixed HS256 algorithm, minting is total (no per-call secret error
path exists), and consequently no token is ever minted under an empty or
absent secret — the empty/absent-secret failure mode is unreachable. -/
theorem C7_secret_fixed_nonempty :
    SECRET_KEY ≠ "" ∧
    (∀ data : TokenData, ∀ expires_delta : Option Nat, ∀ now : Nat,
      (create_access_token data expires_delta now).key = SECRET_KEY ∧
      (create_access_token data expires_delta now).key ≠ "" ∧
      (create_access_token data expires_delta now).alg = "HS256") := by
  refine ⟨by decide, fun data expires_delta now => ⟨rfl, ?_, rfl⟩⟩
  show ¬ SECRET_KEY = ""
  decide

theorem C7_witness :
    (create_access_token { sub := "alice@example.com" } none 0).key = SECRET_KEY ∧
    (create_access_token { sub := "alice@example.com" } none 0).key ≠ "" ∧
    (create_access_token { sub := "alice@example.com" } none 0).alg = "HS256" :=
  C7_secret_fixed_nonempty.2 { sub := "alice@example.com" } none 0

/-- C8, counterexample: supplying the ttl `timedelta(0)` does not give an
expiry of `now + 0`; Python's truthiness test `if expires_delta:` sends the
zero delta into the default branch, so the expiry is `now + 15 minutes`. -/
theorem C8_counterexample :
    (create_access_token { sub := "alice@example.com" } (some 0) 1000).claims.exp ≠
      1000 + 0 := by
  decide

/-- C8, amended: with no ttl supplied, or with a supplied ttl equal to zero
(a falsy `timedelta`), the minted token's expiry is the current time plus
15 minutes; with a supplied nonzero ttl the expiry is the current time plus
that ttl. -/
theorem C8_expiry_default (data : TokenData) (now : Nat) :
    (create_access_token data none now).claims.exp = now + 15 * 60 ∧
    (create_access_token data (some 0) now).claims.exp = now + 15 * 60 ∧
    (∀ d : Nat, d ≠ 0 → (create_access_token data (some d) now).claims.exp = now + d) := by
  refine ⟨rfl, rfl, fun d hd => ?_⟩
  simp [create_access_token, hd]

theorem C8_witness :
    (600 : Nat) ≠ 0 ∧
    (create_access_token { sub := "x" } none 50).claims.exp = 50 + 15 * 60 ∧
    (create_access_token { sub := "x" } (some 0) 50).claims.exp = 50 + 15 * 60 ∧
    (create_access_token { sub := "x" } (some 600) 50).claims.exp = 50 + 600 :=
  ⟨by decide, (C8_expiry_default { sub := "x" } 50).1,
    (C8_expiry_default { sub := "x" } 50).2.1,
    (C8_expiry_default { sub := "x" } 50).2.2 600 (by decide)⟩

/-- C9: error payloads of the exposed authenticate and issue-api-key
endpoints never depend on any stored password hash or on the signing
secret: two runs on repositories that differ only in password hashes and
both fail produce identical payloads, and every error payload of either
endpoint is one of four fixed constant strings in which neither a hash nor
the secret occurs. -/
theorem C9_error_payload_independent :
    (∀ db1 db2 : Db, ∀ now : Nat, ∀ username password : String,
      ∀ e1 e2 : ErrorResponse,
      agreeExceptPassword db1 db2 →
      api_post_authenticate_user db1 now username password = Except.error e1 →
      api_post_authenticate_user db2 now username password = Except.error e2 →
      e1 = e2) ∧
    (∀ db : Db, ∀ now : Nat, ∀ username password : String, ∀ e : ErrorResponse,
      api_post_authenticate_user db now username password = Except.error e →
      e = { status_code := 500, error := "404: User not found" } ∨
      e = { status_code := 500, error := "401: Incorrect username or password" }) ∧
    (∀ db : Db, ∀ now rnd : Nat, ∀ uid : String, ∀ perms : List String,
      ∀ e : ErrorResponse, ∀ db2 : Db,
      api_post_issue_api_key db now rnd uid perms = (Except.error e, db2) →
      e = { status_code := 500, error := "404: User not found." } ∨
      e = { status_code := 500, error := "403: Insufficient permissions." }) := by
  refine ⟨?_, ?_, ?_⟩
  · intro db1 db2 now username password e1 e2 hagree h1 h2
    rcases api_auth_error_cases db1 now username password e1 h1 with ⟨hn1, he1⟩ | ⟨⟨u1, hs1⟩, he1⟩ <;>
      rcases api_auth_error_cases db2 now username password e2 h2 with ⟨hn2, he2⟩ | ⟨⟨u2, hs2⟩, he2⟩
    · rw [he1, he2]
    · rw [(findUniqueByEmail_agree_none hagree username).mp hn1] at hs2
      cases hs2
    · rw [(findUniqueByEmail_agree_none hagree username).mpr hn2] at hs1
      cases hs1
    · rw [he1, he2]
  · intro db now username password e h
    rcases api_auth_error_cases db now username password e h with ⟨-, he⟩ | ⟨-, he⟩
    · exact Or.inl he
    · exact Or.inr he
  · intro db now rnd uid perms e db2 h
    exact (api_issue_error_cases db now rnd uid perms e db2 h).1

theorem C9_witness :
    agreeExceptPassword [demoUser] [demoUser2] ∧
    api_post_authenticate_user [demoUser] 0 "alice@example.com" "zzz" =
      Except.error { status_code := 500, error := "401: Incorrect username or password" } ∧
    api_post_authenticate_user [demoUser2] 0 "alice@example.com" "zzz" =
      Except.error { status_code := 500, error := "401: Incorrect username or password" } ∧
    ({ status_code := 500, error := "401: Incorrect username or password" } : ErrorResponse) =
      { status_code := 500, error := "401: Incorrect username or password" } := by
  have hagree : agreeExceptPassword [demoUser] [demoUser2] :=
    List.Forall₂.cons ⟨rfl, rfl, rfl, rfl⟩ List.Forall₂.nil
  exact ⟨hagree, rfl, rfl,
    C9_error_payload_independent.1 [demoUser] [demoUser2] 0 "alice@example.com" "zzz"
      _ _ hagree rfl rfl⟩

/-- C10: a successful `issue_api_key` call changes the repository only by
writing the new key into the `apiKey` field of the records matching the
target user id; every other field of every record (id, email, password,
role) is unchanged, records of other users are wholly unchanged, and the
grant's `expiration_date` and `permissions` are not persisted anywhere
(the record has no such fields and only `apiKey` is written). -/
theorem C10_frame (db : Db) (now rnd : Nat) (uid : String) (perms : List String)
    (resp : IssueApiKeyResponse) (db2 : Db)
    (h : issue_api_key db now rnd uid perms = (Except.ok resp, db2)) :
    List.Forall₂ (fun u u2 =>
      u2.id = u.id ∧ u2.email = u.email ∧ u2.password = u.password ∧
      u2.role = u.role ∧
      (u.id = uid → u2.apiKey = some resp.api_key) ∧
      (u.id ≠ uid → u2 = u)) db db2 := by
  unfold issue_api_key at h
  cases hf : findUniqueById db uid with
  | none => rw [hf] at h; cases h
  | some user =>
    rw [hf] at h
    by_cases hr : user.role = UserRole.ADMIN
    · simp only [hr, ne_eq, not_true, if_false, ite_false] at h
      obtain ⟨hresp, hdb⟩ := Prod.mk.inj h
      cases hresp
      subst hdb
      unfold updateApiKey
      rw [List.forall₂_map_right_iff]
      rw [List.forall₂_same]
      intro u hu
      by_cases hid : u.id = uid
      · simp [hid]
      · simp [beq_eq_false_iff_ne.mpr hid, hid]
    · simp [hr] at h

theorem C10_witness :
    issue_api_key demoDb 0 5 "u1" ["read"] =
      (Except.ok { api_key := uuidString 5, permissions := ["read"],
                   expiration_date := 0 + 365 * 86400 },
        updateApiKey demoDb "u1" (uuidString 5)) ∧
    List.Forall₂ (fun u u2 =>
      u2.id = u.id ∧ u2.email = u.email ∧ u2.password = u.password ∧
      u2.role = u.role ∧
      (u.id = "u1" → u2.apiKey = some (uuidString 5)) ∧
      (u.id ≠ "u1" → u2 = u)) demoDb (updateApiKey demoDb "u1" (uuidString 5)) :=
  ⟨rfl, C10_frame demoDb 0 5 "u1" ["read"]
    { api_key := uuidString 5, permissions := ["read"],
      expiration_date := 0 + 365 * 86400 }
    (updateApiKey demoDb "u1" (uuidString 5)) rfl⟩

end TzApi
